import Mathlib

/-!
Shallow embedding of the tour-recommendation use case of this repository:
the query parser, the places-search adapter, the weather adapters and the
top-level recommendation orchestrator, together with theorems about them.

Conventions of the embedding:
* JavaScript strings become Lean String (all text involved is in the
  Basic Multilingual Plane, so UTF-16 lengths and code-unit positions agree
  with scalar-value lengths and positions).
* A value that may be undefined or null becomes an Option.
* JavaScript truthiness on optional strings / booleans is made explicit
  through jsTruthyS and jsTruthyB (the empty string is falsy).
* Code that can throw returns Except String, the error being the message;
  a catch block becomes a match on that Except.
* The remote HTTP services are an explicit environment Env: each adapter
  receives the transport response (or transport failure) from Env, and the
  adapters themselves are translated from the source.
* The orchestrator additionally returns a ghost trace of the adapter calls
  it makes, so that theorems can speak about which stages were invoked.
-/

namespace TourRec

/-! Data model, translated from entry/src/main/ets/services/types.ts and the
amap response interfaces of the service file. -/

structure PoiItem where
  name : String
  address : Option String := none
  location : Option String := none
  city : Option String := none
  distance : Option Int := none
  score : Option Int := none
  tel : Option String := none
  image : Option String := none
deriving DecidableEq

structure WeatherInfo where
  city : String
  adcode : Option String := none
  weather : String
  temperature : String
  winddirection : Option String := none
  windpower : Option String := none
  humidity : Option String := none
  reporttime : Option String := none
deriving DecidableEq

structure WeatherForecast where
  date : String
  week : Option String := none
  dayweather : String
  nightweather : String
  daytemp : String
  nighttemp : String
  daywind : Option String := none
  nightwind : Option String := none
  daypower : Option String := none
  nightpower : Option String := none
deriving DecidableEq

structure RecommendationResult where
  summary : String
  items : List PoiItem
  fromMock : Bool
  weather : Option WeatherInfo := none
  weatherForecast : Option (List WeatherForecast) := none
deriving DecidableEq

structure RecommendationRequest where
  query : String
  city : Option String := none
  location : Option String := none
  travelDate : Option String := none
  destination : Option String := none
  departure : Option String := none
deriving DecidableEq

/-- Configuration object, from entry/src/main/ets/common/config.ts.
All fields are optional there; the network timeout and URLs play no role in
the control flow modelled here but are kept for completeness. -/
structure AppConfig where
  amapKey : Option String := none
  amapBaseUrl : Option String := none
  llmApiKey : Option String := none
  llmBaseUrl : Option String := none
  llmModel : Option String := none
  llmSystemPrompt : Option String := none
  llmEnableSearch : Option Bool := none
  defaultCity : Option String := none
  networkTimeout : Option Nat := none
  mockMode : Option Bool := none
deriving DecidableEq

/-! Raw amap HTTP response shapes (AmapPoiSearchResponse, AmapGeocodeResponse,
AmapWeatherResponse of the service file). Fields that no modelled function
reads are kept only when they appear in a modelled code path. -/

structure AmapPhoto where
  title : Option String := none
  url : Option String := none
deriving DecidableEq

structure AmapPoi where
  id : String := ""
  name : String
  typecode : String := ""
  address : Option String := none
  location : String := ""
  tel : Option String := none
  distance : Option String := none
  business_area : Option String := none
  photos : Option (List AmapPhoto) := none
deriving DecidableEq

structure AmapPoiSearchResponse where
  status : String
  count : String := ""
  info : String := ""
  infocode : String := ""
  pois : Option (List AmapPoi) := none
deriving DecidableEq

structure AmapGeocode where
  adcode : Option String := none
deriving DecidableEq

structure AmapGeocodeResponse where
  status : String
  geocodes : Option (List AmapGeocode) := none
deriving DecidableEq

structure AmapLive where
  province : String := ""
  city : String := ""
  adcode : String := ""
  weather : String := ""
  temperature : String := ""
  winddirection : String := ""
  windpower : String := ""
  humidity : String := ""
  reporttime : String := ""
deriving DecidableEq

structure AmapCast where
  date : String := ""
  week : String := ""
  dayweather : String := ""
  nightweather : String := ""
  daytemp : String := ""
  nighttemp : String := ""
  daywind : String := ""
  nightwind : String := ""
  daypower : String := ""
  nightpower : String := ""
deriving DecidableEq

structure AmapForecastBlock where
  city : String := ""
  adcode : String := ""
  province : String := ""
  reporttime : String := ""
  casts : List AmapCast := []
deriving DecidableEq

structure AmapWeatherResponse where
  status : String
  count : String := ""
  info : String := ""
  infocode : String := ""
  lives : Option (List AmapLive) := none
  forecasts : Option (List AmapForecastBlock) := none
deriving DecidableEq

/-- External world: transport-level responses of the three amap endpoints and
the chat-completion call of LlmService.generateRecommendation. An Except
error models a thrown HttpError (or, for the llm field, any failure of the
wrapped call, whose message the orchestrator inspects for a timeout hint). -/
structure Env where
  poiResp : String → String → Except String AmapPoiSearchResponse
  geocodeResp : String → Except String AmapGeocodeResponse
  weatherResp : String → String → Except String AmapWeatherResponse
  llm : String → List PoiItem → Option String → Except String String

/-- Ghost trace entry: one remote-adapter invocation made by the
orchestrator. -/
inductive CallEvent where
  | search (keywords city : String)
  | adcode (city : String)
  | weatherLive (city : String)
  | weatherFc (city : String)
  | llm (query : String)
deriving DecidableEq

def CallEvent.isSearch : CallEvent → Bool
  | .search _ _ => true
  | _ => false

/-! JavaScript-truthiness helpers. -/

def jsTruthyS : Option String → Bool
  | some s => s != ""
  | none => false

def jsTruthyB : Option Bool → Bool
  | some b => b
  | none => false

/-- Model of the expression a-or-b on two optional strings: a when a is
truthy, b otherwise. -/
def jsOr (a b : Option String) : Option String :=
  if jsTruthyS a then a else b

/-- Model of the expression a-or-b when the right operand is a plain string:
the left operand when truthy, the fallback otherwise. -/
def jsOrStr (a : Option String) (b : String) : String :=
  match a with
  | some s => if s == "" then b else s
  | none => b

/-! Character-list string machinery used to translate the regular-expression
operations of parseQuery. The whitespace set of jsTrim covers the ASCII
whitespace that can actually occur in the modelled strings. -/

def jsWhitespace (c : Char) : Bool :=
  c == ' ' || c == '\t' || c == '\n' || c == '\r' || c == '\x0b' || c == '\x0c'

def trimLeftL : List Char → List Char
  | [] => []
  | c :: t => if jsWhitespace c then trimLeftL t else c :: t

def jsTrimL (s : List Char) : List Char :=
  (trimLeftL (trimLeftL s.reverse).reverse)

def jsTrim (s : String) : String :=
  String.mk (jsTrimL s.toList)

def startsWithL : List Char → List Char → Bool
  | [], _ => true
  | _ :: _, [] => false
  | a :: as, b :: bs => a == b && startsWithL as bs

/-- Substring containment test, the model of the includes method of
JavaScript strings: hasSubstr hay needle. -/
def hasSubstrL (needle : List Char) : List Char → Bool
  | [] => needle.isEmpty
  | c :: t => startsWithL needle (c :: t) || hasSubstrL needle t

def hasSubstr (hay needle : String) : Bool :=
  hasSubstrL needle.toList hay.toList

/-- Characters excluded by the character class of the departure pattern: the
fullwidth and the ASCII comma. -/
def nonComma (c : Char) : Bool := !(c == '，' || c == ',')

/-- Greedy backtracking capture of the departure pattern at a position right
after a 从 character: the longest nonempty run of non-comma characters that
is immediately followed by the two characters 出发. Returns the length of
the capture. -/
def departKAux (rest : List Char) : Nat → Option Nat
  | 0 => none
  | k + 1 =>
    if (rest.take (k + 1)).all nonComma && startsWithL ['出', '发'] (rest.drop (k + 1)) then
      some (k + 1)
    else departKAux rest k

def departMatchAt (rest : List Char) : Option (List Char) :=
  match departKAux rest rest.length with
  | some k => some (rest.take k)
  | none => none

/-- Leftmost match of the departure regular expression: 从, a greedy nonempty
run of non-comma characters, 出发; returns the captured group. -/
def matchDeparture : List Char → Option (List Char)
  | [] => none
  | c :: t =>
    if c == '从' then
      match departMatchAt t with
      | some cap => some cap
      | none => matchDeparture t
    else matchDeparture t

/-- Alternatives of the leading non-capturing group of the first destination
pattern (tried in alternation order). Their first characters are pairwise
distinct, so at a given position at most one alternative can match, which
makes first-match equal to the backtracking alternation of the engine. -/
def cityPrefAlts : List (List Char) := [['我', '想', '去'], ['去'], ['在'], ['到'], ['玩']]

def firstAltAt (alts : List (List Char)) (s : List Char) : Option (List Char) :=
  alts.find? (fun a => startsWithL a s)

/-- Character class of the capture of the first destination pattern:
everything except 玩天日出发 and the two commas. -/
def cityClass1 (c : Char) : Bool :=
  !(c == '玩' || c == '天' || c == '日' || c == '出' || c == '发' || c == '，' || c == ',')

/-- Trailing alternatives of the first destination pattern. First characters
are pairwise distinct. -/
def citySufAlts1 : List (List Char) :=
  [['玩'], ['旅', '游'], ['一', '日', '游'], ['两', '日', '游'], ['三', '日', '游'], ['出', '发']]

/-- Lazy (shortest-first) nonempty capture over a character class, stopped at
the first point where one of the trailing alternatives matches; the model of
a lazy plus-quantifier followed by an alternation group. -/
def lazyCap (cls : Char → Bool) (alts : List (List Char)) : List Char → Option (List Char)
  | [] => none
  | c :: t =>
    if cls c then
      if alts.any (fun a => startsWithL a t) then some [c]
      else
        match lazyCap cls alts t with
        | some cap => some (c :: cap)
        | none => none
    else none

def pat1At (s : List Char) : Option (List Char) :=
  match firstAltAt cityPrefAlts s with
  | some a => lazyCap cityClass1 citySufAlts1 (s.drop a.length)
  | none => none

/-- Leftmost match of the first destination-extraction pattern; returns the
captured candidate city. -/
def scanPat1 : List Char → Option (List Char)
  | [] => none
  | c :: t =>
    match pat1At (c :: t) with
    | some cap => some cap
    | none => scanPat1 t

/-- Character class of the capture of the second destination pattern:
everything except 今明后出发 and the two commas. -/
def cityClass2 (c : Char) : Bool :=
  !(c == '今' || c == '明' || c == '后' || c == '出' || c == '发' || c == '，' || c == ',')

def citySufAlts2 : List (List Char) :=
  [['一', '日', '游'], ['两', '日', '游'], ['三', '日', '游']]

/-- Leftmost match of the second destination-extraction pattern. -/
def scanPat2 : List Char → Option (List Char)
  | [] => none
  | c :: t =>
    match lazyCap cityClass2 citySufAlts2 (c :: t) with
    | some cap => some cap
    | none => scanPat2 t

/-- Suffix alternatives of the dynamically built city-removal pattern (no
出发 alternative there). -/
def citySufAltsRepl : List (List Char) :=
  [['玩'], ['旅', '游'], ['一', '日', '游'], ['两', '日', '游'], ['三', '日', '游']]

/-- Match length, at one position, of the dynamically built pattern: an
optional greedy leading alternation, the literal city, an optional greedy
trailing alternation. If the leading alternative matches but the city does
not follow it, the engine backtracks to the empty leading group. -/
def matchCityAt (cityL : List Char) (s : List Char) : Option Nat :=
  let tryWith : Nat → Option Nat := fun plen =>
    let r := s.drop plen
    if startsWithL cityL r then
      let r2 := r.drop cityL.length
      match firstAltAt citySufAltsRepl r2 with
      | some a => some (plen + cityL.length + a.length)
      | none => some (plen + cityL.length)
    else none
  match firstAltAt cityPrefAlts s with
  | some a =>
    match tryWith a.length with
    | some n => some n
    | none => tryWith 0
  | none => tryWith 0

/-- First-occurrence replacement by the empty string of the dynamically built
city pattern, assuming the city contains no regular-expression
metacharacter (the safe case; the unsafe case is handled in parseQuery). -/
def replaceFirstCity (cityL : List Char) : List Char → List Char
  | [] => []
  | c :: t =>
    match matchCityAt cityL (c :: t) with
    | some n => (c :: t).drop n
    | none => c :: replaceFirstCity cityL t

/-- Fuel-driven global replacement of the departure pattern (optionally
prefixed by a fullwidth comma) by the empty string. The fuel is the length
of the string, which bounds the number of scanning steps; structural
recursion on the fuel keeps the function kernel-reducible. -/
def replaceAllDepartF (pre : List Char) : Nat → List Char → List Char
  | _, [] => []
  | 0, s => s
  | fuel + 1, c :: t =>
    if startsWithL (pre ++ ['从']) (c :: t) then
      match departMatchAt ((c :: t).drop (pre.length + 1)) with
      | some cap =>
        replaceAllDepartF pre fuel (((c :: t).drop (pre.length + 1)).drop (cap.length + 2))
      | none => c :: replaceAllDepartF pre fuel t
    else c :: replaceAllDepartF pre fuel t

def replaceAllDepart (pre : List Char) (s : List Char) : List Char :=
  replaceAllDepartF pre s.length s

/-- Fuel-driven global replacement of the literal 我想去 by the empty
string. -/
def replaceAllWxqF : Nat → List Char → List Char
  | _, [] => []
  | 0, s => s
  | fuel + 1, c :: t =>
    if startsWithL ['我', '想', '去'] (c :: t) then replaceAllWxqF fuel (t.drop 2)
    else c :: replaceAllWxqF fuel t

def replaceAllWxq (s : List Char) : List Char :=
  replaceAllWxqF s.length s

/-- Regular-expression metacharacters. A candidate city containing one of
these makes the dynamically built pattern of parseQuery differ from the
literal-city pattern: the constructor may throw (an unbalanced parenthesis
raises a SyntaxError) or the pattern may match other text. The embedding
treats that whole situation as the exceptional outcome of parseQuery; every
theorem below that touches this path uses a city for which the construction
does throw. -/
def regexMeta (c : Char) : Bool :=
  c == '\\' || c == '^' || c == '$' || c == '.' || c == '|' || c == '?' || c == '*' ||
    c == '+' || c == '(' || c == ')' || c == '[' || c == ']' || c == '\x7b' || c == '\x7d'

def regexSafe (s : String) : Bool :=
  s.toList.all (fun c => !(regexMeta c))

/-! The query parser, translated from RecommendationUseCase.parseQuery.
The exceptional outcome (Except.error) models the SyntaxError thrown by the
RegExp constructor when the accepted extracted city contains
regular-expression metacharacters. -/

/-- Acceptance predicate for a trimmed candidate destination city: at most 4
characters, distinct from the extracted departure city, and containing
neither 出发 nor 从. -/
def acceptCity (extractedCity departureCity : String) : Bool :=
  decide (extractedCity.length ≤ 4) && extractedCity != departureCity &&
    !(hasSubstr extractedCity "出发") && !(hasSubstr extractedCity "从")

/-- Destination-extraction part of parseQuery (the branch taken when no
default city was supplied), producing the keyword text and the city. -/
def parseQueryExtract (cfg : AppConfig) (query : String) (defaultCity : Option String) :
    Except String (String × String) :=
  let city := jsOrStr (jsOr defaultCity cfg.defaultCity) "北京"
  let keywords := jsTrim query
  if !(jsTruthyS defaultCity) then
    let departureCity :=
      match matchDeparture query.toList with
      | some cap => jsTrim (String.mk cap)
      | none => ""
    let tryCand : Option (List Char) → Option String := fun cap? =>
      match cap? with
      | some cap =>
        let ec := jsTrim (String.mk cap)
        if acceptCity ec departureCity then some ec else none
      | none => none
    let replaceWith : String → Except String (String × String) := fun ec =>
      if regexSafe ec then
        Except.ok (jsTrim (String.mk (replaceFirstCity ec.toList query.toList)), ec)
      else Except.error "Invalid regular expression"
    match tryCand (scanPat1 query.toList) with
    | some ec => replaceWith ec
    | none =>
      match tryCand (scanPat2 query.toList) with
      | some ec => replaceWith ec
      | none => Except.ok (keywords, city)
  else Except.ok (keywords, city)

/-- Generic-keyword fallback: a keyword text shorter than 2 characters is
replaced by 景点 旅游. -/
def kwFallback (k : String) : String :=
  if k == "" || decide (k.length < 2) then "景点 旅游" else k

/-- Keyword normalization for the common query patterns, in source order. -/
def normalizeKw (k : String) : String :=
  if hasSubstr k "吃什么" || hasSubstr k "餐厅" || hasSubstr k "美食" then "餐厅 美食"
  else if hasSubstr k "玩什么" || hasSubstr k "景点" || hasSubstr k "旅游" then "景点 旅游"
  else if hasSubstr k "咖啡" || hasSubstr k "咖啡店" then "咖啡店"
  else k

/-- Cleanup applied to the extracted pair on every path of parseQuery:
departure-phrase removal, 我想去 removal, the generic fallback, and the
keyword normalization. -/
def parseQueryPost (p : String × String) : String × String :=
  let kw1 := jsTrim (String.mk (replaceAllDepart [] p.1.toList))
  let kw2 := jsTrim (String.mk (replaceAllDepart ['，'] kw1.toList))
  let kw3 := jsTrim (String.mk (replaceAllWxq kw2.toList))
  (normalizeKw (kwFallback kw3), p.2)

/-- RecommendationUseCase.parseQuery: keywords and city from one query, with
an optional caller-supplied default city. -/
def parseQuery (cfg : AppConfig) (query : String) (defaultCity : Option String) :
    Except String (String × String) :=
  match parseQueryExtract cfg query defaultCity with
  | Except.ok p => Except.ok (parseQueryPost p)
  | Except.error m => Except.error m

/-! The amap service, translated from the AmapService class of the service
file: searchPoi, getCityAdcode, getWeather and getWeatherForecast. -/

/-- Model of the http error message fallback: message-or-网络错误. -/
def jsMsg (m : String) : String :=
  if m == "" then "网络错误" else m

/-- Mapping of one raw poi record to a PoiItem, from the searchPoi result
mapping. A distance string that does not parse as a decimal integer (NaN
after Number conversion in the source) is modelled as an absent distance;
no modelled code path reads the numeric value. -/
def mapPoi (searchCity : String) (poi : AmapPoi) : PoiItem :=
  { name := poi.name
    address := some (jsOrStr (jsOr poi.address poi.business_area) "")
    location := some poi.location
    city := some searchCity
    distance :=
      match poi.distance with
      | some d => if d != "" then d.toInt? else none
      | none => none
    score := none
    tel := poi.tel
    image :=
      match poi.photos with
      | some (p :: _) => if jsTruthyS p.url then p.url else none
      | _ => none }

namespace AmapService

/-- AmapService.searchPoi: throws when the key is missing, when the transport
fails or when the response status is not the success status; otherwise maps
the poi records. The thrown messages reproduce the wrapping performed by
the catch block of the source. -/
def searchPoi (cfg : AppConfig) (env : Env) (keywords city : String) :
    Except String (List PoiItem) :=
  if !(jsTruthyS cfg.amapKey) then Except.error "高德地图密钥未配置"
  else
    let searchCity := jsOrStr (jsOr (some city) cfg.defaultCity) "北京"
    match env.poiResp keywords searchCity with
    | Except.error m => Except.error ("POI搜索失败: " ++ jsMsg m)
    | Except.ok resp =>
      if resp.status != "1" then
        Except.error
          ("POI搜索失败: " ++ ("高德API错误: " ++ (if resp.info == "" then "未知错误" else resp.info)))
      else Except.ok ((resp.pois.getD []).map (mapPoi searchCity))

/-- AmapService.getCityAdcode: never throws; a missing key, a transport
failure, a non-success status, an empty geocode list or a falsy adcode all
yield none. -/
def getCityAdcode (cfg : AppConfig) (env : Env) (cityName : String) : Option String :=
  if !(jsTruthyS cfg.amapKey) then none
  else
    match env.geocodeResp cityName with
    | Except.error _ => none
    | Except.ok resp =>
      if resp.status == "1" then
        match resp.geocodes with
        | some (g :: _) => if jsTruthyS g.adcode then g.adcode else none
        | _ => none
      else none

/-- AmapService.getWeather: never throws; resolves the area code when one was
not supplied, then queries the live weather, returning none on any
failure. -/
def getWeather (cfg : AppConfig) (env : Env) (city : String) (adcode : Option String) :
    Option WeatherInfo :=
  if !(jsTruthyS cfg.amapKey) then none
  else
    let finalAdcode := if jsTruthyS adcode then adcode else getCityAdcode cfg env city
    let cityParam := jsOrStr finalAdcode city
    match env.weatherResp cityParam "base" with
    | Except.error _ => none
    | Except.ok resp =>
      if resp.status == "1" then
        match resp.lives with
        | some (live :: _) =>
          some { city := live.city
                 adcode := some live.adcode
                 weather := live.weather
                 temperature := live.temperature
                 winddirection := some live.winddirection
                 windpower := some live.windpower
                 humidity := some live.humidity
                 reporttime := some live.reporttime }
        | _ => none
      else none

/-- AmapService.getWeatherForecast: never throws; like getWeather but with
the forecast extension, mapping the cast records of the first forecast
block. -/
def getWeatherForecast (cfg : AppConfig) (env : Env) (city : String) (adcode : Option String) :
    Option (List WeatherForecast) :=
  if !(jsTruthyS cfg.amapKey) then none
  else
    let finalAdcode := if jsTruthyS adcode then adcode else getCityAdcode cfg env city
    let cityParam := jsOrStr finalAdcode city
    match env.weatherResp cityParam "all" with
    | Except.error _ => none
    | Except.ok resp =>
      if resp.status == "1" then
        match resp.forecasts with
        | some (fb :: _) =>
          some (fb.casts.map (fun cast =>
            { date := cast.date
              week := some cast.week
              dayweather := cast.dayweather
              nightweather := cast.nightweather
              daytemp := cast.daytemp
              nighttemp := cast.nighttemp
              daywind := some cast.daywind
              nightwind := some cast.nightwind
              daypower := some cast.daypower
              nightpower := some cast.nightpower }))
        | _ => none
      else none

end AmapService

/-! The recommendation orchestrator, translated from
RecommendationUseCase.getRecommendations. -/

/-- Step-1 target-city resolution: request destination, request city,
configured default, hard 北京 fallback. -/
def targetCityOf (cfg : AppConfig) (req : RecommendationRequest) : String :=
  jsOrStr (jsOr req.destination (jsOr req.city cfg.defaultCity)) "北京"

/-- City actually used for the searches: request destination, parsed city,
resolved target city. -/
def searchCityOf (cfg : AppConfig) (req : RecommendationRequest) (city : String) : String :=
  jsOrStr (jsOr req.destination (some city)) (targetCityOf cfg req)

/-- Keyword augmentation before the first search: broad synonyms for empty
or generic keywords, appended scenic-spot keywords otherwise. -/
def augmentKeywords (keywords : String) : String :=
  if keywords == "" || keywords == "景点 旅游" then "景点|旅游景点|名胜古迹|景区|公园|博物馆|纪念馆"
  else if !(hasSubstr keywords "景点") && !(hasSubstr keywords "旅游") then
    keywords ++ "|景点|旅游景点"
  else keywords

/-- Search step of the orchestrator (the guarded try block around the two
searchPoi calls): returns the item list and the trace of search calls. A
failure of either call is caught and resets the list to empty. -/
def searchPhase (cfg : AppConfig) (env : Env) (keywords searchCity : String) :
    List PoiItem × List CallEvent :=
  if !jsTruthyB cfg.mockMode && jsTruthyS cfg.amapKey then
    let searchKeywords := augmentKeywords keywords
    let ev1 := [CallEvent.search searchKeywords searchCity]
    match AmapService.searchPoi cfg env searchKeywords searchCity with
    | Except.error _ => ([], ev1)
    | Except.ok pois1 =>
      if pois1.length < 5 then
        match AmapService.searchPoi cfg env "景点" searchCity with
        | Except.error _ => ([], ev1 ++ [CallEvent.search "景点" searchCity])
        | Except.ok fallbackPois =>
          let existingNames := pois1.map PoiItem.name
          let newPois := fallbackPois.filter (fun p => !(existingNames.contains p.name))
          ((pois1 ++ newPois).take 50, ev1 ++ [CallEvent.search "景点" searchCity])
      else (pois1, ev1)
  else ([], [])

/-- Weather step of the orchestrator: resolve the area code once, then the
live weather and the forecast; the adapters never throw, so the surrounding
catch of the source is silent here. -/
def weatherPhase (cfg : AppConfig) (env : Env) (searchCity : String) :
    (Option WeatherInfo × Option (List WeatherForecast)) × List CallEvent :=
  if !jsTruthyB cfg.mockMode && jsTruthyS cfg.amapKey && searchCity != "" then
    let cityAdcode := AmapService.getCityAdcode cfg env searchCity
    let weather := AmapService.getWeather cfg env searchCity cityAdcode
    let forecast := AmapService.getWeatherForecast cfg env searchCity cityAdcode
    ((weather, forecast),
      [CallEvent.adcode searchCity, CallEvent.weatherLive searchCity,
       CallEvent.weatherFc searchCity])
  else ((none, none), [])

/-- Context string for the narrative call, from the context-building block of
the orchestrator. -/
def ctxAppend (c piece : String) : String :=
  if c != "" then c ++ ", " ++ piece else piece

def forecastLine (f : WeatherForecast) : String :=
  f.date ++ ": 白天" ++ f.dayweather ++ " " ++ f.daytemp ++ "°C, 夜间" ++ f.nightweather ++
    " " ++ f.nighttemp ++ "°C"

def buildContext (req : RecommendationRequest) (weather : Option WeatherInfo)
    (forecast : Option (List WeatherForecast)) : String :=
  let c0 := if jsTruthyS req.destination then "目的地: " ++ req.destination.getD "" else ""
  let c1 :=
    if jsTruthyS req.departure then ctxAppend c0 ("出发地: " ++ req.departure.getD "") else c0
  let c2 :=
    if jsTruthyS req.travelDate then ctxAppend c1 ("出行日期: " ++ req.travelDate.getD "")
    else c1
  let c3 :=
    if jsTruthyS req.location then ctxAppend c2 ("当前位置: " ++ req.location.getD "") else c2
  let c4 :=
    match weather with
    | some w =>
      let b0 := ctxAppend c3 ("当前天气: " ++ w.weather ++ ", 温度: " ++ w.temperature ++ "°C")
      let b1 :=
        if jsTruthyS w.winddirection && jsTruthyS w.windpower then
          b0 ++ ", 风向: " ++ w.winddirection.getD "" ++ ", 风力: " ++ w.windpower.getD ""
        else b0
      if jsTruthyS w.humidity then b1 ++ ", 湿度: " ++ w.humidity.getD "" ++ "%" else b1
    | none => c3
  match forecast with
  | some fs =>
    if fs.length > 0 then
      ctxAppend c4 ("未来天气: " ++ String.intercalate "; " (fs.map forecastLine))
    else c4
  | none => c4

/-- One line of the deterministic fallback listing. -/
def poiLine (idx : Nat) (poi : PoiItem) : String :=
  let t0 := toString (idx + 1) ++ ". " ++ poi.name
  let t1 := if jsTruthyS poi.address then t0 ++ "（" ++ poi.address.getD "" ++ "）" else t0
  match poi.distance with
  | some d => t1 ++ " - 距离" ++ toString d ++ "米"
  | none => t1

/-- RecommendationUseCase.generateDefaultSummary: the deterministic summary
used when the narrative engine is unavailable. -/
def generateDefaultSummary (pois : List PoiItem) (query : String) : String :=
  if pois.length == 0 then "根据您的查询\"" ++ query ++ "\"，暂未找到相关推荐。"
  else
    let items := String.intercalate "\n" ((pois.take 5).enum.map (fun pr => poiLine pr.1 pr.2))
    "为您找到以下推荐：\n\n" ++ items ++ "\n\n" ++
      (if pois.length > 5 then "还有" ++ toString (pois.length - 5) ++ "个结果未显示。" else "")

/-- Narrative step of the orchestrator: call the model when live with a
narrative key, fall back to the deterministic summary on failure, with the
extra note when the failure message signals a timeout. -/
def summaryPhase (cfg : AppConfig) (env : Env) (req : RecommendationRequest)
    (pois : List PoiItem) (weather : Option WeatherInfo)
    (forecast : Option (List WeatherForecast)) : String × List CallEvent :=
  if !jsTruthyB cfg.mockMode && jsTruthyS cfg.llmApiKey then
    let context := buildContext req weather forecast
    let ctxOpt := if context == "" then none else some context
    match env.llm req.query pois ctxOpt with
    | Except.ok s => (s, [CallEvent.llm req.query])
    | Except.error m =>
      if hasSubstr m "Timeout" || hasSubstr m "超时" then
        (generateDefaultSummary pois req.query ++ "\n\n（注：AI推荐生成超时，已显示基础推荐列表）",
          [CallEvent.llm req.query])
      else (generateDefaultSummary pois req.query, [CallEvent.llm req.query])
  else (generateDefaultSummary pois req.query, [])

/-- Body of getRecommendations after the parse step succeeded: search,
short-circuit on an empty live item list, weather, narrative, assembly. -/
def getRecAfterParse (cfg : AppConfig) (env : Env) (req : RecommendationRequest)
    (keywords city : String) : RecommendationResult × List CallEvent :=
  let searchCity := searchCityOf cfg req city
  let sp := searchPhase cfg env keywords searchCity
  if sp.1.length == 0 && !jsTruthyB cfg.mockMode then
    ({ summary := "未找到相关地点，请尝试其他关键词或检查网络连接。"
       items := []
       fromMock := false
       weather := none
       weatherForecast := none }, sp.2)
  else
    let wp := weatherPhase cfg env searchCity
    let sm := summaryPhase cfg env req sp.1 wp.1.1 wp.1.2
    ({ summary := sm.1
       items := sp.1
       fromMock := jsTruthyB cfg.mockMode
       weather := wp.1.1
       weatherForecast := wp.1.2 }, sp.2 ++ wp.2 ++ sm.2)

/-- The try block of getRecommendations (steps 1 to 7): resolves the target
city, parses, and runs the remaining pipeline. The only uncaught throw site
inside the block is the parse step. -/
def getRecommendationsE (cfg : AppConfig) (env : Env) (req : RecommendationRequest) :
    Except String (RecommendationResult × List CallEvent) :=
  match parseQuery cfg req.query (some (targetCityOf cfg req)) with
  | Except.error m => Except.error m
  | Except.ok p => Except.ok (getRecAfterParse cfg env req p.1 p.2)

/-- RecommendationUseCase.getRecommendations with its top-level catch: a
thrown error becomes the 获取推荐失败 result. The second component is the
ghost trace of adapter invocations. -/
def getRecommendations (cfg : AppConfig) (env : Env) (req : RecommendationRequest) :
    RecommendationResult × List CallEvent :=
  match getRecommendationsE cfg env req with
  | Except.ok r => r
  | Except.error m =>
    ({ summary := "获取推荐失败: " ++ m
       items := []
       fromMock := false
       weather := none
       weatherForecast := none }, [])

/-! Spec-side definition for the places-merge refinement. -/

/-- Merge of the two search phases as the specification words it: keep all
first-phase results, append the second-phase results whose name does not
already appear in the first phase, truncate to 50 items. -/
def specMergedPlaces (first : List PoiItem) (second : List PoiItem) : List PoiItem :=
  (first ++ second.filter (fun q => decide (q.name ∉ first.map PoiItem.name))).take 50

/-! Failure predicates on raw responses, used to state the weather-adapter
degradation claims: a transport failure, a non-success status, or an empty
result list. -/

def geoFailB : Except String AmapGeocodeResponse → Bool
  | Except.error _ => true
  | Except.ok resp => resp.status != "1" || (resp.geocodes.getD []).isEmpty

def liveFailB : Except String AmapWeatherResponse → Bool
  | Except.error _ => true
  | Except.ok resp => resp.status != "1" || (resp.lives.getD []).isEmpty

def forecastFailB : Except String AmapWeatherResponse → Bool
  | Except.error _ => true
  | Except.ok resp => resp.status != "1" || (resp.forecasts.getD []).isEmpty

/-! Concrete fixtures used by the closed theorems and witnesses below. -/

/-- Environment in which every remote call fails at the transport level. -/
def envDown : Env :=
  { poiResp := fun _ _ => Except.error "网络超时"
    geocodeResp := fun _ => Except.error "网络超时"
    weatherResp := fun _ _ => Except.error "网络超时"
    llm := fun _ _ _ => Except.error "网络超时" }

/-- Raw poi record carrying only a name. -/
def rawPoi (n : String) : AmapPoi := { name := n }

/-- Successful poi response holding the named records. -/
def okPoiResp (ns : List String) : AmapPoiSearchResponse :=
  { status := "1", pois := some (ns.map rawPoi) }

/-- Item produced by mapPoi from a name-only record searched in 北京. -/
def bjItem (n : String) : PoiItem :=
  { name := n
    address := some ""
    location := some ""
    city := some "北京"
    distance := none
    score := none
    tel := none
    image := none }

/-- Live configuration with a search key and nothing else. -/
def cfgLive : AppConfig := { amapKey := some "k", mockMode := some false }

/-- Environment whose searches succeed with an empty result list and whose
other calls fail. -/
def envEmptySearch : Env :=
  { envDown with poiResp := fun _ _ => Except.ok (okPoiResp []) }

/-- Environment for the merge fixture: the broad second-phase query returns
four items (one name already known), every other search returns three. -/
def envMerge : Env :=
  { envDown with
    poiResp := fun kw _ =>
      if kw == "景点" then Except.ok (okPoiResp ["甲", "丁", "戊", "己"])
      else Except.ok (okPoiResp ["甲", "乙", "丙"]) }

/-- Environment for the duplicate-name fixture: the first search already
returns five items, two of which share a name. -/
def envDupNames : Env :=
  { envDown with poiResp := fun _ _ => Except.ok (okPoiResp ["甲", "甲", "乙", "丙", "丁"]) }

/-- Environment for the second merge fixture, used by the amended
cap-and-dedup invariant: first phase two items, second phase two items with
one duplicate name. -/
def envMergeSmall : Env :=
  { envDown with
    poiResp := fun kw _ =>
      if kw == "景点" then Except.ok (okPoiResp ["乙", "丙"])
      else Except.ok (okPoiResp ["甲", "乙"]) }

/-- Live configuration carrying no search key. -/
def cfgNoKey : AppConfig := { mockMode := some false }

/-! Helper lemmas. -/

theorem jsTruthyS_some {d : String} (h : d ≠ "") : jsTruthyS (some d) = true := by
  simp [jsTruthyS, bne_iff_ne, h]

theorem jsOrStr_ne_empty (a : Option String) {b : String} (hb : b ≠ "") :
    jsOrStr a b ≠ "" := by
  cases a with
  | none => simpa [jsOrStr] using hb
  | some s =>
    simp only [jsOrStr]
    split
    · exact hb
    · next h => simpa using h

theorem targetCityOf_ne (cfg : AppConfig) (req : RecommendationRequest) :
    targetCityOf cfg req ≠ "" :=
  jsOrStr_ne_empty _ (by decide)

/-- With a nonempty caller-supplied default city, the extraction branch of
parseQuery is skipped and the parse always succeeds. -/
theorem parseQuery_skip (cfg : AppConfig) (q : String) {d : String} (hd : d ≠ "") :
    parseQuery cfg q (some d) =
      Except.ok (parseQueryPost (jsTrim q, jsOrStr (jsOr (some d) cfg.defaultCity) "北京")) := by
  simp [parseQuery, parseQueryExtract, jsTruthyS_some hd]

/-- Reduction of the orchestrator once the parse result is known. -/
theorem getRecommendations_ok (cfg : AppConfig) (env : Env) (req : RecommendationRequest)
    {p : String × String}
    (hp : parseQuery cfg req.query (some (targetCityOf cfg req)) = Except.ok p) :
    getRecommendations cfg env req = getRecAfterParse cfg env req p.1 p.2 := by
  simp [getRecommendations, getRecommendationsE, hp]

/-- Every event emitted by the search phase is a search event. -/
theorem searchPhase_trace_isSearch (cfg : AppConfig) (env : Env) (kw sc : String) :
    ((searchPhase cfg env kw sc).2).all CallEvent.isSearch = true := by
  simp only [searchPhase]
  split
  · split
    · rfl
    · split
      · split
        · rfl
        · rfl
      · rfl
  · rfl

/-- Reduction of the search phase on the two-phase merge path. -/
theorem searchPhase_merge (cfg : AppConfig) (env : Env) (kw sc : String)
    (P F : List PoiItem)
    (hm : jsTruthyB cfg.mockMode = false)
    (hk : jsTruthyS cfg.amapKey = true)
    (h1 : AmapService.searchPoi cfg env (augmentKeywords kw) sc = Except.ok P)
    (h5 : P.length < 5)
    (h2 : AmapService.searchPoi cfg env "景点" sc = Except.ok F) :
    searchPhase cfg env kw sc =
      (specMergedPlaces P F,
        [CallEvent.search (augmentKeywords kw) sc, CallEvent.search "景点" sc]) := by
  have hfilter : F.filter (fun p => !((P.map PoiItem.name).contains p.name)) =
      F.filter (fun q => decide (q.name ∉ P.map PoiItem.name)) := by
    apply List.filter_congr
    intro a _
    by_cases hmem : a.name ∈ P.map PoiItem.name <;>
      simp [List.contains, List.elem_iff, hmem]
  simp only [searchPhase, hm, hk, Bool.not_false, Bool.and_self, if_true, h1, h2,
    if_pos h5, specMergedPlaces, hfilter, List.singleton_append]

/-- The items of the orchestrator result on the two-phase merge path. -/
theorem items_eq_specMerged (cfg : AppConfig) (env : Env) (req : RecommendationRequest)
    (kw pc : String) (P F : List PoiItem)
    (hm : jsTruthyB cfg.mockMode = false)
    (hk : jsTruthyS cfg.amapKey = true)
    (hp : parseQuery cfg req.query (some (targetCityOf cfg req)) = Except.ok (kw, pc))
    (h1 : AmapService.searchPoi cfg env (augmentKeywords kw) (searchCityOf cfg req pc) =
      Except.ok P)
    (h5 : P.length < 5)
    (h2 : AmapService.searchPoi cfg env "景点" (searchCityOf cfg req pc) = Except.ok F) :
    (getRecommendations cfg env req).1.items = specMergedPlaces P F := by
  rw [getRecommendations_ok cfg env req hp]
  have hsp := searchPhase_merge cfg env kw (searchCityOf cfg req pc) P F hm hk h1 h5 h2
  by_cases hPF : specMergedPlaces P F = []
  · simp [getRecAfterParse, hsp, hPF, hm]
  · have hlen : ((specMergedPlaces P F).length == 0) = false := by
      simpa using fun h => hPF (List.length_eq_zero.mp h)
    simp [getRecAfterParse, hsp, hlen]

/-! Claim theorems. -/

/-- C1: for every request, configuration and environment, the try block of
getRecommendations returns normally (every exception of steps 1 to 7 is
caught at an inner site, so the top-level catch that would produce the
获取推荐失败 result never fires) and getRecommendations resolves to exactly
that body result; the orchestrator itself never throws. -/
theorem C1_getRecommendations_never_throws (cfg : AppConfig) (env : Env)
    (req : RecommendationRequest) :
    ∃ r, getRecommendationsE cfg env req = Except.ok r ∧
      getRecommendations cfg env req = r := by
  have hp := parseQuery_skip cfg req.query (targetCityOf_ne cfg req)
  have hE : getRecommendationsE cfg env req =
      Except.ok (getRecAfterParse cfg env req
        (parseQueryPost (jsTrim req.query,
          jsOrStr (jsOr (some (targetCityOf cfg req)) cfg.defaultCity) "北京")).1
        (parseQueryPost (jsTrim req.query,
          jsOrStr (jsOr (some (targetCityOf cfg req)) cfg.defaultCity) "北京")).2) := by
    simp [getRecommendationsE, hp]
  exact ⟨_, hE, by simp [getRecommendations, hE]⟩

/-- C2: counterexample run showing that the orchestrator does not let the
parser infer the destination from the query text. For the request with
query 我想去上海玩, no destination and no city, in live mode with no
configured default city, both poi searches are issued for the city 北京,
although parseQuery applied with no default city extracts 上海 from the
same text, so the inference branch would have produced 上海. -/
theorem C2_destination_not_inferred :
    (getRecommendations cfgLive envEmptySearch { query := "我想去上海玩" }).2 =
        [CallEvent.search "上海玩|景点|旅游景点" "北京", CallEvent.search "景点" "北京"] ∧
      parseQuery cfgLive "我想去上海玩" none = Except.ok ("景点 旅游", "上海") :=
  ⟨rfl, rfl⟩

/-- C3 counterexample: a live run whose first search already returns five
items, two of which share the name 甲; the returned items list is exactly
that list, so it is not de-duplicated by name. -/
theorem C3_items_dedup_counterexample :
    (getRecommendations cfgLive envDupNames { query := "故宫" }).1.items.map PoiItem.name =
        ["甲", "甲", "乙", "丙", "丁"] ∧
      ¬ List.Nodup
        ((getRecommendations cfgLive envDupNames { query := "故宫" }).1.items.map
          PoiItem.name) := by
  have h : (getRecommendations cfgLive envDupNames { query := "故宫" }).1.items.map
      PoiItem.name = ["甲", "甲", "乙", "丙", "丁"] := rfl
  exact ⟨h, by rw [h]; decide⟩

/-- C3 amended: on the two-phase merge path (first search succeeded with
fewer than five items and the broad second search succeeded), the returned
items list has at most 50 entries and every entry is either a first-phase
item or a second-phase item whose name does not occur in the first phase;
off this path the items list is the raw first-phase adapter result. -/
theorem C3_items_merge_invariant (cfg : AppConfig) (env : Env) (req : RecommendationRequest)
    (kw pc : String) (P F : List PoiItem)
    (hm : jsTruthyB cfg.mockMode = false)
    (hk : jsTruthyS cfg.amapKey = true)
    (hp : parseQuery cfg req.query (some (targetCityOf cfg req)) = Except.ok (kw, pc))
    (h1 : AmapService.searchPoi cfg env (augmentKeywords kw) (searchCityOf cfg req pc) =
      Except.ok P)
    (h5 : P.length < 5)
    (h2 : AmapService.searchPoi cfg env "景点" (searchCityOf cfg req pc) = Except.ok F) :
    (getRecommendations cfg env req).1.items.length ≤ 50 ∧
      ∀ q ∈ (getRecommendations cfg env req).1.items,
        q ∈ P ∨ (q ∈ F ∧ q.name ∉ P.map PoiItem.name) := by
  have hit := items_eq_specMerged cfg env req kw pc P F hm hk hp h1 h5 h2
  rw [hit]
  constructor
  · exact List.length_take_le 50 _
  · intro q hq
    have hq' := List.mem_of_mem_take hq
    rcases List.mem_append.mp hq' with hqP | hqF
    · exact Or.inl hqP
    · rcases List.mem_filter.mp hqF with ⟨hmF, hdec⟩
      exact Or.inr ⟨hmF, of_decide_eq_true hdec⟩

/-- C3 amended, witness run: first phase 甲乙, second phase 乙丙, so the
merged list is 甲乙丙 and satisfies the cap and the cross-phase
de-duplication. -/
theorem C3_items_merge_invariant_witness :
    (getRecommendations cfgLive envMergeSmall { query := "故宫" }).1.items.length ≤ 50 ∧
      ∀ q ∈ (getRecommendations cfgLive envMergeSmall { query := "故宫" }).1.items,
        q ∈ ["甲", "乙"].map bjItem ∨
          (q ∈ ["乙", "丙"].map bjItem ∧
            q.name ∉ (["甲", "乙"].map bjItem).map PoiItem.name) :=
  C3_items_merge_invariant cfgLive envMergeSmall { query := "故宫" } "故宫" "北京"
    (["甲", "乙"].map bjItem) (["乙", "丙"].map bjItem)
    rfl rfl rfl rfl (by decide) rfl

/-- C4: the claim that parseQuery never throws is the documented intent, but
the code builds a RegExp from the raw extracted city; for the query 去(玩
with no default city the accepted candidate city is the single character (,
the constructed pattern has an unbalanced parenthesis and its compilation
throws, modelled here as the exceptional parse outcome. -/
theorem C4_parseQuery_regexp_throws :
    parseQuery {} "去(玩" none = Except.error "Invalid regular expression" := rfl

/-- C5: in live mode, whenever the item list is empty after the search step
(search failed, never ran, or returned nothing), the orchestrator returns
the fixed no-results result with empty items and fromMock false, and the
whole call trace consists of search events only: neither the weather
adapters nor the narrative generation are invoked. -/
theorem C5_empty_results_short_circuit (cfg : AppConfig) (env : Env)
    (req : RecommendationRequest) (kw pc : String)
    (hm : jsTruthyB cfg.mockMode = false)
    (hp : parseQuery cfg req.query (some (targetCityOf cfg req)) = Except.ok (kw, pc))
    (hempty : (searchPhase cfg env kw (searchCityOf cfg req pc)).1 = []) :
    getRecommendations cfg env req =
        ({ summary := "未找到相关地点，请尝试其他关键词或检查网络连接。"
           items := []
           fromMock := false
           weather := none
           weatherForecast := none },
          (searchPhase cfg env kw (searchCityOf cfg req pc)).2) ∧
      ((searchPhase cfg env kw (searchCityOf cfg req pc)).2).all CallEvent.isSearch = true := by
  refine ⟨?_, searchPhase_trace_isSearch cfg env kw (searchCityOf cfg req pc)⟩
  rw [getRecommendations_ok cfg env req hp]
  simp [getRecAfterParse, hempty, hm]

/-- C5 witness: live mode with no search key, so the search never runs, the
item list is empty, and the run returns the no-results result with an empty
trace. -/
theorem C5_empty_results_short_circuit_witness :
    getRecommendations cfgNoKey envDown { query := "玩什么" } =
        ({ summary := "未找到相关地点，请尝试其他关键词或检查网络连接。"
           items := []
           fromMock := false
           weather := none
           weatherForecast := none },
          (searchPhase cfgNoKey envDown "景点 旅游"
            (searchCityOf cfgNoKey { query := "玩什么" } "北京")).2) ∧
      ((searchPhase cfgNoKey envDown "景点 旅游"
          (searchCityOf cfgNoKey { query := "玩什么" } "北京")).2).all CallEvent.isSearch =
        true :=
  C5_empty_results_short_circuit cfgNoKey envDown { query := "玩什么" } "景点 旅游" "北京"
    rfl rfl rfl

/-- C6: whenever the first search returns fewer than five items and the
broad second search succeeds, the returned items list is exactly the
specification merge: first-phase items in order, then the second-phase items
whose name does not occur in the first phase in order, truncated to 50. -/
theorem C6_two_phase_merge (cfg : AppConfig) (env : Env) (req : RecommendationRequest)
    (kw pc : String) (P F : List PoiItem)
    (hm : jsTruthyB cfg.mockMode = false)
    (hk : jsTruthyS cfg.amapKey = true)
    (hp : parseQuery cfg req.query (some (targetCityOf cfg req)) = Except.ok (kw, pc))
    (h1 : AmapService.searchPoi cfg env (augmentKeywords kw) (searchCityOf cfg req pc) =
      Except.ok P)
    (h5 : P.length < 5)
    (h2 : AmapService.searchPoi cfg env "景点" (searchCityOf cfg req pc) = Except.ok F) :
    (getRecommendations cfg env req).1.items = specMergedPlaces P F :=
  items_eq_specMerged cfg env req kw pc P F hm hk hp h1 h5 h2

/-- C6 witness: first phase of size 3, second phase of size 4 sharing one
name; the merged list is the specification merge and has size 6. -/
theorem C6_two_phase_merge_witness :
    (getRecommendations cfgLive envMerge { query := "故宫" }).1.items =
        specMergedPlaces (["甲", "乙", "丙"].map bjItem) (["甲", "丁", "戊", "己"].map bjItem) ∧
      (specMergedPlaces (["甲", "乙", "丙"].map bjItem)
          (["甲", "丁", "戊", "己"].map bjItem)).length = 6 :=
  ⟨C6_two_phase_merge cfgLive envMerge { query := "故宫" } "故宫" "北京"
      (["甲", "乙", "丙"].map bjItem) (["甲", "丁", "戊", "己"].map bjItem)
      rfl rfl rfl rfl (by decide) rfl,
    by decide⟩

/-- C7: the query 我想去上海玩,从北京出发 parsed with no default city yields
the city 上海 (not the departure city 北京), and in general a candidate
destination equal to the extracted departure city fails the acceptance
predicate. -/
theorem C7_departure_not_destination :
    parseQuery {} "我想去上海玩,从北京出发" none = Except.ok ("景点 旅游", "上海") ∧
      ∀ ec dep : String, ec = dep → acceptCity ec dep = false := by
  refine ⟨rfl, ?_⟩
  intro ec dep h
  subst h
  simp [acceptCity]

/-- C7 witness: the acceptance predicate rejects 北京 as a destination when
北京 is the departure city. -/
theorem C7_departure_not_destination_witness : acceptCity "北京" "北京" = false :=
  C7_departure_not_destination.2 "北京" "北京" rfl

/-- C8: after the generic-keyword fallback, normalization fires in priority
order: the restaurant set, else the scenic set, else the coffee set; and
the query 吃什么好 parses to the keywords 餐厅 美食. -/
theorem C8_keyword_normalization (s : String) :
    ((hasSubstr (kwFallback s) "吃什么" || hasSubstr (kwFallback s) "餐厅" ||
        hasSubstr (kwFallback s) "美食") = true →
      normalizeKw (kwFallback s) = "餐厅 美食") ∧
    ((hasSubstr (kwFallback s) "吃什么" || hasSubstr (kwFallback s) "餐厅" ||
        hasSubstr (kwFallback s) "美食") = false →
      (hasSubstr (kwFallback s) "玩什么" || hasSubstr (kwFallback s) "景点" ||
        hasSubstr (kwFallback s) "旅游") = true →
      normalizeKw (kwFallback s) = "景点 旅游") ∧
    ((hasSubstr (kwFallback s) "吃什么" || hasSubstr (kwFallback s) "餐厅" ||
        hasSubstr (kwFallback s) "美食") = false →
      (hasSubstr (kwFallback s) "玩什么" || hasSubstr (kwFallback s) "景点" ||
        hasSubstr (kwFallback s) "旅游") = false →
      (hasSubstr (kwFallback s) "咖啡" || hasSubstr (kwFallback s) "咖啡店") = true →
      normalizeKw (kwFallback s) = "咖啡店") ∧
    parseQuery {} "吃什么好" none = Except.ok ("餐厅 美食", "北京") := by
  refine ⟨?_, ?_, ?_, rfl⟩
  · intro h1
    simp [normalizeKw, h1]
  · intro h1 h2
    simp [normalizeKw, h1, h2]
  · intro h1 h2 h3
    simp [normalizeKw, h1, h2, h3]

/-- C8 witness: the three normalization branches at concrete post-fallback
keyword texts. -/
theorem C8_keyword_normalization_witness :
    normalizeKw (kwFallback "吃什么好") = "餐厅 美食" ∧
      normalizeKw (kwFallback "转转景点") = "景点 旅游" ∧
      normalizeKw (kwFallback "喝喝咖啡") = "咖啡店" :=
  ⟨(C8_keyword_normalization "吃什么好").1 (by decide),
    (C8_keyword_normalization "转转景点").2.1 (by decide) (by decide),
    (C8_keyword_normalization "喝喝咖啡").2.2.1 (by decide) (by decide) (by decide)⟩

/-- C9: the three weather-side adapters are total functions into Option and
degrade to none: a transport failure, a non-success status or an empty
result list of the geocode call makes getCityAdcode return none, and when
every live (resp. forecast) weather response fails in one of those ways,
getWeather (resp. getWeatherForecast) returns none. -/
theorem C9_weather_adapters_degrade (cfg : AppConfig) (env : Env) (city : String)
    (adc : Option String) :
    (geoFailB (env.geocodeResp city) = true →
      AmapService.getCityAdcode cfg env city = none) ∧
    ((∀ cp, liveFailB (env.weatherResp cp "base") = true) →
      AmapService.getWeather cfg env city adc = none) ∧
    ((∀ cp, forecastFailB (env.weatherResp cp "all") = true) →
      AmapService.getWeatherForecast cfg env city adc = none) := by
  refine ⟨?_, ?_, ?_⟩
  · intro h
    by_cases hk : jsTruthyS cfg.amapKey
    · cases hr : env.geocodeResp city with
      | error e => simp [AmapService.getCityAdcode, hk, hr]
      | ok resp =>
        rw [hr] at h
        simp only [geoFailB] at h
        rw [Bool.or_eq_true] at h
        rcases h with hs | he
        · have hs' : (resp.status == "1") = false := by
            cases hb : resp.status == "1" <;> simp_all [bne]
          simp [AmapService.getCityAdcode, hk, hr, hs']
        · cases hg : resp.geocodes with
          | none => simp [AmapService.getCityAdcode, hk, hr, hg]
          | some gs =>
            cases gs with
            | nil => simp [AmapService.getCityAdcode, hk, hr, hg]
            | cons g t => rw [hg] at he; simp at he
    · simp [AmapService.getCityAdcode, hk]
  · intro h
    by_cases hk : jsTruthyS cfg.amapKey
    · simp only [AmapService.getWeather, hk, Bool.not_true, Bool.false_eq_true, if_false]
      have hfail := h (jsOrStr
        (if jsTruthyS adc then adc else AmapService.getCityAdcode cfg env city) city)
      cases hr : env.weatherResp (jsOrStr
          (if jsTruthyS adc then adc else AmapService.getCityAdcode cfg env city) city)
          "base" with
      | error e => simp [hr]
      | ok resp =>
        rw [hr] at hfail
        simp only [liveFailB] at hfail
        rw [Bool.or_eq_true] at hfail
        rcases hfail with hs | he
        · have hs' : (resp.status == "1") = false := by
            cases hb : resp.status == "1" <;> simp_all [bne]
          simp [hr, hs']
        · cases hl : resp.lives with
          | none => simp [hr, hl]
          | some ls =>
            cases ls with
            | nil => simp [hr, hl]
            | cons l t => rw [hl] at he; simp at he
    · simp [AmapService.getWeather, hk]
  · intro h
    by_cases hk : jsTruthyS cfg.amapKey
    · simp only [AmapService.getWeatherForecast, hk, Bool.not_true, Bool.false_eq_true,
        if_false]
      have hfail := h (jsOrStr
        (if jsTruthyS adc then adc else AmapService.getCityAdcode cfg env city) city)
      cases hr : env.weatherResp (jsOrStr
          (if jsTruthyS adc then adc else AmapService.getCityAdcode cfg env city) city)
          "all" with
      | error e => simp [hr]
      | ok resp =>
        rw [hr] at hfail
        simp only [forecastFailB] at hfail
        rw [Bool.or_eq_true] at hfail
        rcases hfail with hs | he
        · have hs' : (resp.status == "1") = false := by
            cases hb : resp.status == "1" <;> simp_all [bne]
          simp [hr, hs']
        · cases hl : resp.forecasts with
          | none => simp [hr, hl]
          | some fs =>
            cases fs with
            | nil => simp [hr, hl]
            | cons fb t => rw [hl] at he; simp at he
    · simp [AmapService.getWeatherForecast, hk]

/-- C9 witness: in the all-failing environment, the three adapters return
none for the city 北京. -/
theorem C9_weather_adapters_degrade_witness :
    AmapService.getCityAdcode cfgLive envDown "北京" = none ∧
      AmapService.getWeather cfgLive envDown "北京" none = none ∧
      AmapService.getWeatherForecast cfgLive envDown "北京" none = none :=
  ⟨(C9_weather_adapters_degrade cfgLive envDown "北京" none).1 rfl,
    (C9_weather_adapters_degrade cfgLive envDown "北京" none).2.1 (fun _ => rfl),
    (C9_weather_adapters_degrade cfgLive envDown "北京" none).2.2 (fun _ => rfl)⟩

/-- C10: in mock mode the orchestrator result is the fixed deterministic
fallback on an empty item list, independent of the environment: the summary
is the 暂未找到相关推荐 sentence around the query, the items are empty,
fromMock is true, weather and forecast are absent, and no adapter call is
made. -/
theorem C10_mock_mode_deterministic (cfg : AppConfig) (env : Env)
    (req : RecommendationRequest) (hm : jsTruthyB cfg.mockMode = true) :
    getRecommendations cfg env req =
      ({ summary := "根据您的查询\"" ++ req.query ++ "\"，暂未找到相关推荐。"
         items := []
         fromMock := true
         weather := none
         weatherForecast := none }, []) := by
  have hp := parseQuery_skip cfg req.query (targetCityOf_ne cfg req)
  rw [getRecommendations_ok cfg env req hp]
  simp [getRecAfterParse, searchPhase, weatherPhase, summaryPhase, generateDefaultSummary, hm]

/-- C10 witness: a concrete mock-mode run, with its hypothesis discharged at
a mock configuration. -/
theorem C10_mock_mode_deterministic_witness :
    getRecommendations { mockMode := some true } envDown { query := "周末玩什么" } =
      ({ summary := "根据您的查询\"周末玩什么\"，暂未找到相关推荐。"
         items := []
         fromMock := true
         weather := none
         weatherForecast := none }, []) :=
  C10_mock_mode_deterministic { mockMode := some true } envDown { query := "周末玩什么" } rfl

end TourRec
